import Mathlib

/-!
Verification of the token economics calculator (src/app.py and src/run.py).

The numeric core of both programs is embedded shallowly over the exact
rationals ℚ: Python numbers become rationals, decimal literals such as
0.1 and 0.2 become the exact rationals 1/10 and 1/5, and every function
is total, mirroring the source's guard structure. String formatting
models Python's comma-grouped fixed-point rendering with round-half-even
at two decimals.
-/

/-! ## Constants (src/app.py lines 49-50, src/run.py lines 26-27) -/

/-- Total token supply, 10 billion (app.py line 49, run.py line 26). -/
def TOTAL_SUPPLY : ℚ := 10000000000

/-- Fraction of raised funds that go to the LP (app.py line 50, run.py line 27). -/
def LP_FUND_PERCENT : ℚ := 0.20

/-! ## Validator (src/app.py lines 63-75) -/

/-- The triple returned by validate_allocation: a validity flag, the
computed LP percentage, and a reason message (empty when valid). -/
structure ValidationOutcome where
  valid : Bool
  lp_percent : ℚ
  reason : String

/-- Embedding of validate_allocation (app.py lines 63-75): compute
lp_percent = 100 - team - public, reject with "LP cannot be 0%" when
lp_percent < 0.1, else reject with "LP FDV would drop below ICO FDV"
when public_percent > 0.1 and lp_percent > 0.2 * public_percent, else
accept. -/
def validate_allocation (team_percent public_percent : ℚ) : ValidationOutcome :=
  let lp_percent : ℚ := 100 - team_percent - public_percent
  if lp_percent < 0.1 then
    ⟨false, lp_percent, "LP cannot be 0%"⟩
  else if public_percent > 0.1 ∧ lp_percent > 0.2 * public_percent then
    ⟨false, lp_percent, "LP FDV would drop below ICO FDV"⟩
  else
    ⟨true, lp_percent, ""⟩

/-! ## Derivation (src/app.py lines 136-163, src/run.py lines 269-326) -/

/-- The derived quantities computed by the module-level code of app.py
(lines 136-163) and by the numeric core of update_calculations in
run.py (lines 269-326). -/
structure AllocationResult where
  team_tokens : ℚ
  public_tokens : ℚ
  lp_tokens : ℚ
  lp_funds : ℚ
  team_funds : ℚ
  ico_price : ℚ
  lp_price : ℚ
  fdv_ico : ℚ
  fdv_lp : ℚ
  fdv_multiple : ℚ

/-- Embedding of the derivation in app.py lines 136-163, run with the
lp_percent returned by validate_allocation (line 119).  Every division
is guarded exactly as in the source: ico_price is funds/public_tokens
when public_tokens > 0 and 0 otherwise, lp_price is lp_funds/lp_tokens
when lp_tokens > 0 and 0 otherwise, fdv_multiple is fdv_lp/fdv_ico when
fdv_ico > 0 and 0 otherwise. -/
def app_results (team_percent public_percent funds_to_raise : ℚ) : AllocationResult :=
  let lp_percent := (validate_allocation team_percent public_percent).lp_percent
  let team_tokens := TOTAL_SUPPLY * (team_percent / 100)
  let public_tokens := TOTAL_SUPPLY * (public_percent / 100)
  let lp_tokens := TOTAL_SUPPLY * (lp_percent / 100)
  let lp_funds := funds_to_raise * LP_FUND_PERCENT
  let team_funds := funds_to_raise * (1 - LP_FUND_PERCENT)
  let ico_price := if public_tokens > 0 then funds_to_raise / public_tokens else 0
  let lp_price := if lp_tokens > 0 then lp_funds / lp_tokens else 0
  let fdv_ico := TOTAL_SUPPLY * ico_price
  let fdv_lp := TOTAL_SUPPLY * lp_price
  let fdv_multiple := if fdv_ico > 0 then fdv_lp / fdv_ico else 0
  ⟨team_tokens, public_tokens, lp_tokens, lp_funds, team_funds,
   ico_price, lp_price, fdv_ico, fdv_lp, fdv_multiple⟩

/-- Embedding of the numeric core of TokenEconomicsGUI.update_calculations
(run.py lines 269-326): identical formulas to app.py, with lp_percent
computed directly as 100 - team - public (line 269).  The presentation
parts of the method (labels, warning thresholds, debug printing) are not
part of the numeric result and are omitted. -/
def run_update_calculations (team_percent public_percent funds_to_raise : ℚ) : AllocationResult :=
  let lp_percent := 100 - team_percent - public_percent
  let team_tokens := TOTAL_SUPPLY * (team_percent / 100)
  let public_tokens := TOTAL_SUPPLY * (public_percent / 100)
  let lp_tokens := TOTAL_SUPPLY * (lp_percent / 100)
  let lp_funds := funds_to_raise * LP_FUND_PERCENT
  let team_funds := funds_to_raise * (1 - LP_FUND_PERCENT)
  let ico_price := if public_tokens > 0 then funds_to_raise / public_tokens else 0
  let lp_price := if lp_tokens > 0 then lp_funds / lp_tokens else 0
  let fdv_ico := TOTAL_SUPPLY * ico_price
  let fdv_lp := TOTAL_SUPPLY * lp_price
  let fdv_multiple := if fdv_ico > 0 then fdv_lp / fdv_ico else 0
  ⟨team_tokens, public_tokens, lp_tokens, lp_funds, team_funds,
   ico_price, lp_price, fdv_ico, fdv_lp, fdv_multiple⟩

/-! ## GUI validity predicate and state machine (src/run.py lines 139-259) -/

/-- Embedding of the validity decision of validate_and_update (run.py
lines 216-235): the candidate pair is valid when none of the three
checks fires: team + public >= 100, lp < 0.1, and
(public > 0.1 and lp > 0.2 * public). -/
def run_is_valid (team_val public_val : ℚ) : Bool :=
  let lp_val := 100 - team_val - public_val
  if team_val + public_val ≥ 100 then false
  else if lp_val < 0.1 then false
  else if public_val > 0.1 ∧ lp_val > 0.2 * public_val then false
  else true

/-- The committed slider state of TokenEconomicsGUI: the last committed
team and public percentages (prev_team, prev_public, run.py lines
140-141).  In every quiescent state the slider variables equal the
committed values: a rejected edit is immediately reverted to them
(lines 244-247) and an accepted edit replaces them (lines 255-256). -/
structure GuiState where
  prev_team : ℚ
  prev_public : ℚ
deriving DecidableEq

/-- A user interaction: moving one of the three sliders to a new value. -/
inductive GuiEdit where
  | setTeam (v : ℚ)
  | setPublic (v : ℚ)
  | setFunds (v : ℚ)

/-- Initial committed state of the GUI: team_var = 10, public_var = 70
(run.py lines 43-45, committed at lines 140-141). -/
def gui_init : GuiState := ⟨10, 70⟩

/-- One edit step of the GUI (validate_and_update, run.py lines 214-259):
editing team or public forms the candidate pair from the edited value
and the other committed value; if run_is_valid accepts it the pair is
committed, otherwise the edited variable is reverted and the committed
pair is unchanged.  Editing funds only reruns the calculations and
never changes the committed pair (line 145). -/
def gui_step (s : GuiState) : GuiEdit → GuiState
  | .setTeam v => if run_is_valid v s.prev_public then ⟨v, s.prev_public⟩ else s
  | .setPublic v => if run_is_valid s.prev_team v then ⟨s.prev_team, v⟩ else s
  | .setFunds _ => s

/-- The states of the GUI reachable from the initial state by edits. -/
inductive GuiReachable : GuiState → Prop where
  | init : GuiReachable gui_init
  | step {s : GuiState} (e : GuiEdit) : GuiReachable s → GuiReachable (gui_step s e)

/-! ## Display formatting (src/app.py lines 52-61, src/run.py lines 203-212) -/

/-- Two decimal digits of a number in [0, 100): a leading zero is added
below 10. -/
def twoDigits (n : Nat) : List Char :=
  if n < 10 then '0' :: Nat.toDigits 10 n else Nat.toDigits 10 n

/-- Insert a comma after every digit whose distance to the end of the
list is a positive multiple of 3; n is the number of digits remaining. -/
def insertCommasAux : List Char → Nat → List Char
  | [], _ => []
  | c :: cs, n =>
    if n % 3 = 1 ∧ cs ≠ [] then c :: ',' :: insertCommasAux cs (n - 1)
    else c :: insertCommasAux cs (n - 1)

/-- Round a rational to the nearest integer, ties to the even integer,
as IEEE-style decimal rendering does. -/
def roundHalfEven (q : ℚ) : ℤ :=
  let f := ⌊q⌋
  let r := q - (f : ℚ)
  if r < 1/2 then f
  else if r > 1/2 then f + 1
  else if f % 2 = 0 then f else f + 1

/-- Model of the Python format specifier for comma-grouped fixed-point
with two decimals, applied to an exact rational: round to a whole
number of hundredths (ties to even), then render sign, the integer part
with thousands separators, a point, and two fractional digits. -/
def formatFixed2 (q : ℚ) : String :=
  let cents := (roundHalfEven (q * 100)).natAbs
  let sign : String := if q < 0 then "-" else ""
  let intDigits := Nat.toDigits 10 (cents / 100)
  sign ++ String.mk (insertCommasAux intDigits intDigits.length)
       ++ "." ++ String.mk (twoDigits (cents % 100))

/-- Embedding of format_number (app.py lines 52-61; the method at run.py
lines 203-212 is textually identical): successively test the 1e9, 1e6
and 1e3 thresholds, divide by the matching one and append its suffix,
otherwise render the raw value. -/
def format_number (num : ℚ) : String :=
  if num ≥ 1000000000 then formatFixed2 (num / 1000000000) ++ "B"
  else if num ≥ 1000000 then formatFixed2 (num / 1000000) ++ "M"
  else if num ≥ 1000 then formatFixed2 (num / 1000) ++ "K"
  else formatFixed2 num

/-- The formatting contract as the spec words it, with explicitly
disjoint guard ranges: n >= 1e9, 1e6 <= n < 1e9, 1e3 <= n < 1e6, and
the raw case otherwise. -/
def format_number_spec (num : ℚ) : String :=
  if num ≥ 1000000000 then formatFixed2 (num / 1000000000) ++ "B"
  else if 1000000 ≤ num ∧ num < 1000000000 then formatFixed2 (num / 1000000) ++ "M"
  else if 1000 ≤ num ∧ num < 1000000 then formatFixed2 (num / 1000) ++ "K"
  else formatFixed2 num

/-! ## Binary64 rounding model

The Python programs compute in IEEE-754 binary64. The model below
rounds an exact rational to the nearest binary64 value (round to
nearest, ties to even, 53-bit significand), represented again as an
exact rational; each float operation is the exact rational operation
followed by this rounding. Overflow and subnormals are not modelled:
every value arising in the evaluations below lies far inside the
normal range, where this model coincides with binary64. -/

/-- Round a positive-or-negative rational to the nearest 53-bit
binary64 significand value: scale so that the significand occupies
integer positions, round to nearest integer with ties to even, and
scale back. -/
def fl (q : ℚ) : ℚ :=
  if q = 0 then 0
  else
    ((roundHalfEven (q * 2 ^ ((52 : ℤ) - Int.log 2 |q|)) : ℤ) : ℚ) /
      2 ^ ((52 : ℤ) - Int.log 2 |q|)

/-- Rounding an integer value changes nothing. -/
theorem roundHalfEven_intCast (m : ℤ) : roundHalfEven (m : ℚ) = m := by
  norm_num [roundHalfEven]

/-- Evaluation rule for fl: if 2^n <= x < 2^(n+1) and the scaled value
rounds to m, then fl x = m / 2^(52-n). -/
theorem fl_eval {x : ℚ} (n m : ℤ) {y : ℚ} (hx : 0 < x)
    (hlow : (2 : ℚ) ^ n ≤ x) (hhigh : x < (2 : ℚ) ^ (n + 1))
    (hm : roundHalfEven (x * 2 ^ ((52 : ℤ) - n)) = m)
    (hy : (m : ℚ) / 2 ^ ((52 : ℤ) - n) = y) :
    fl x = y := by
  have hne : x ≠ 0 := ne_of_gt hx
  have hcast : ((2 : ℕ) : ℚ) = (2 : ℚ) := by norm_num
  have hlog : Int.log 2 |x| = n := by
    rw [abs_of_pos hx]
    have h1 : n ≤ Int.log 2 x := by
      rw [← Int.zpow_le_iff_le_log (by norm_num) hx, hcast]
      exact hlow
    have h2 : Int.log 2 x < n + 1 := by
      rw [← Int.lt_zpow_iff_log_lt (by norm_num) hx, hcast]
      exact hhigh
    omega
  simp only [fl]
  rw [if_neg hne, hlog, hm, hy]

/-- A rational that already is a 53-bit dyadic value in the binade of n
is a fixed point of fl. -/
theorem fl_exact {x : ℚ} (n m : ℤ) (hx : 0 < x)
    (hlow : (2 : ℚ) ^ n ≤ x) (hhigh : x < (2 : ℚ) ^ (n + 1))
    (hmx : x * 2 ^ ((52 : ℤ) - n) = (m : ℚ)) :
    fl x = x := by
  have h2 : ((2 : ℚ) ^ ((52 : ℤ) - n)) ≠ 0 := by positivity
  refine fl_eval n m hx hlow hhigh ?_ ?_
  · rw [hmx, roundHalfEven_intCast]
  · rw [← hmx, mul_div_assoc, div_self h2, mul_one]

/-- A float subtraction: exact difference, then binary64 rounding. -/
def f64_sub (a b : ℚ) : ℚ := fl (a - b)

/-- A float multiplication: exact product, then binary64 rounding. -/
def f64_mul (a b : ℚ) : ℚ := fl (a * b)

/-- A float division: exact quotient, then binary64 rounding. -/
def f64_div (a b : ℚ) : ℚ := fl (a / b)

/-- The binary64 semantics of validate_allocation (app.py lines 63-75):
the same guard structure as the exact model, with the literals 0.1 and
0.2 replaced by their nearest doubles, the inputs rounded to doubles,
and every arithmetic operation rounded.  (For small integer inputs all
subtractions are exact, so this also agrees with Python's integer
arithmetic path when the sliders deliver ints.) -/
def validate_allocation_f64 (team_percent public_percent : ℚ) : ValidationOutcome :=
  let t := fl team_percent
  let p := fl public_percent
  let lp_percent := f64_sub (f64_sub 100 t) p
  if lp_percent < fl 0.1 then
    ⟨false, lp_percent, "LP cannot be 0%"⟩
  else if p > fl 0.1 ∧ lp_percent > f64_mul (fl 0.2) p then
    ⟨false, lp_percent, "LP FDV would drop below ICO FDV"⟩
  else
    ⟨true, lp_percent, ""⟩

/-- The lp_percent field of the binary64 validator on every branch. -/
theorem validate_allocation_f64_lp (t p : ℚ) :
    (validate_allocation_f64 t p).lp_percent = f64_sub (f64_sub 100 (fl t)) (fl p) := by
  simp only [validate_allocation_f64]
  split_ifs <;> rfl

/-- The binary64 semantics of the derivation in app.py lines 136-163:
the same formulas and guards as app_results, with every operation
rounded to binary64 and the constant LP_FUND_PERCENT taken as the
double nearest 0.20. -/
def app_results_f64 (team_percent public_percent funds_to_raise : ℚ) : AllocationResult :=
  let t := fl team_percent
  let p := fl public_percent
  let f := fl funds_to_raise
  let lp_percent := (validate_allocation_f64 team_percent public_percent).lp_percent
  let team_tokens := f64_mul TOTAL_SUPPLY (f64_div t 100)
  let public_tokens := f64_mul TOTAL_SUPPLY (f64_div p 100)
  let lp_tokens := f64_mul TOTAL_SUPPLY (f64_div lp_percent 100)
  let lp_funds := f64_mul f (fl LP_FUND_PERCENT)
  let team_funds := f64_mul f (f64_sub 1 (fl LP_FUND_PERCENT))
  let ico_price := if public_tokens > 0 then f64_div f public_tokens else 0
  let lp_price := if lp_tokens > 0 then f64_div lp_funds lp_tokens else 0
  let fdv_ico := f64_mul TOTAL_SUPPLY ico_price
  let fdv_lp := f64_mul TOTAL_SUPPLY lp_price
  let fdv_multiple := if fdv_ico > 0 then f64_div fdv_lp fdv_ico else 0
  ⟨team_tokens, public_tokens, lp_tokens, lp_funds, team_funds,
   ico_price, lp_price, fdv_ico, fdv_lp, fdv_multiple⟩

/-- The double nearest 0.1 is slightly above one tenth. -/
theorem fl_point_one : fl (0.1 : ℚ) = 3602879701896397 / 2 ^ 55 :=
  fl_eval (-4) 7205759403792794 (by norm_num) (by norm_num) (by norm_num)
    (by norm_num [roundHalfEven]) (by norm_num)

/-- The double nearest 0.2 is slightly above one fifth. -/
theorem fl_point_two : fl (0.2 : ℚ) = 3602879701896397 / 2 ^ 54 :=
  fl_eval (-3) 7205759403792794 (by norm_num) (by norm_num) (by norm_num)
    (by norm_num [roundHalfEven]) (by norm_num)

/-- Binary64 evaluation of the validator at (10, 89.9): the double for
89.9 exceeds 89.9, so 100 - 10 - 89.9 computes to
3518437208883 / 2^45, about 0.0999999999999943, which is below the
double for 0.1, and the first check rejects. -/
theorem validate_f64_10_899 :
    validate_allocation_f64 10 89.9 =
      ⟨false, 3518437208883 / 2 ^ 45, "LP cannot be 0%"⟩ := by
  have h10 : fl (10 : ℚ) = 10 :=
    fl_exact 3 5629499534213120 (by norm_num) (by norm_num) (by norm_num) (by norm_num)
  have h899 : fl (89.9 : ℚ) = 3163075050785997 / 2 ^ 45 :=
    fl_eval 6 6326150101571994 (by norm_num) (by norm_num) (by norm_num)
      (by norm_num [roundHalfEven]) (by norm_num)
  have e1 : (100 : ℚ) - 10 = 90 := by norm_num
  have h90 : fl (90 : ℚ) = 90 :=
    fl_exact 6 6333186975989760 (by norm_num) (by norm_num) (by norm_num) (by norm_num)
  have e2 : (90 : ℚ) - 3163075050785997 / 2 ^ 45 = 3518437208883 / 2 ^ 45 := by norm_num
  have hlp : fl ((3518437208883 : ℚ) / 2 ^ 45) = 3518437208883 / 2 ^ 45 :=
    fl_exact (-4) 7205759403792384 (by norm_num) (by norm_num) (by norm_num) (by norm_num)
  have hchain : f64_sub (f64_sub 100 (fl (10 : ℚ))) (fl (89.9 : ℚ)) =
      3518437208883 / 2 ^ 45 := by
    simp only [f64_sub]
    rw [h10, e1, h90, h899, e2, hlp]
  simp only [validate_allocation_f64]
  rw [hchain, fl_point_one,
    if_pos (by norm_num : (3518437208883 : ℚ) / 2 ^ 45 < 3602879701896397 / 2 ^ 55)]

/-- Binary64 evaluation of the validator at (16, 70): all subtractions
are exact, lp computes to exactly 14, the double product of the 0.2
double with 70 is exactly 14, and 14 > 14 fails, so the pair is
accepted. -/
theorem validate_f64_16_70 :
    validate_allocation_f64 16 70 = ⟨true, 14, ""⟩ := by
  have h16 : fl (16 : ℚ) = 16 :=
    fl_exact 4 4503599627370496 (by norm_num) (by norm_num) (by norm_num) (by norm_num)
  have h70 : fl (70 : ℚ) = 70 :=
    fl_exact 6 4925812092436480 (by norm_num) (by norm_num) (by norm_num) (by norm_num)
  have e1 : (100 : ℚ) - 16 = 84 := by norm_num
  have h84 : fl (84 : ℚ) = 84 :=
    fl_exact 6 5910974510923776 (by norm_num) (by norm_num) (by norm_num) (by norm_num)
  have e2 : (84 : ℚ) - 70 = 14 := by norm_num
  have h14 : fl (14 : ℚ) = 14 :=
    fl_exact 3 7881299347898368 (by norm_num) (by norm_num) (by norm_num) (by norm_num)
  have hchain : f64_sub (f64_sub 100 (fl (16 : ℚ))) (fl (70 : ℚ)) = 14 := by
    simp only [f64_sub]
    rw [h16, e1, h84, h70, e2, h14]
  have e3 : (3602879701896397 : ℚ) / 2 ^ 54 * 70 = 126100789566373895 / 2 ^ 53 := by
    norm_num
  have hK : fl ((126100789566373895 : ℚ) / 2 ^ 53) = 14 :=
    fl_eval 3 7881299347898368 (by norm_num) (by norm_num) (by norm_num)
      (by norm_num [roundHalfEven]) (by norm_num)
  have hmulK : f64_mul (fl 0.2) (fl (70 : ℚ)) = 14 := by
    simp only [f64_mul]
    rw [fl_point_two, h70, e3, hK]
  simp only [validate_allocation_f64]
  rw [hchain, hmulK, h70, fl_point_one,
    if_neg (by norm_num : ¬ ((14 : ℚ) < 3602879701896397 / 2 ^ 55)),
    if_neg (by norm_num : ¬ ((70 : ℚ) > 3602879701896397 / 2 ^ 55 ∧ (14 : ℚ) > 14))]

/-- Binary64 evaluation of the two prices at (16, 70, 100000): the
public tokens round to exactly 7e9 but the LP tokens round to
1400000000.0000002, so lp_price rounds one ulp below ico_price. -/
theorem app_f64_prices_100000 :
    (app_results_f64 16 70 100000).ico_price = 2108199322709663 / 2 ^ 67 ∧
    (app_results_f64 16 70 100000).lp_price = 8432797290838651 / 2 ^ 69 := by
  have h70 : fl (70 : ℚ) = 70 :=
    fl_exact 6 4925812092436480 (by norm_num) (by norm_num) (by norm_num) (by norm_num)
  have h100000 : fl (100000 : ℚ) = 100000 :=
    fl_exact 16 6871947673600000 (by norm_num) (by norm_num) (by norm_num) (by norm_num)
  have eM1 : (70 : ℚ) / 100 = 7 / 10 := by norm_num
  have hM : fl ((7 : ℚ) / 10) = 3152519739159347 / 2 ^ 52 :=
    fl_eval (-1) 6305039478318694 (by norm_num) (by norm_num) (by norm_num)
      (by norm_num [roundHalfEven]) (by norm_num)
  have eN1 : (10000000000 : ℚ) * (3152519739159347 / 2 ^ 52) =
      30786325577727998046875 / 2 ^ 42 := by norm_num
  have hN : fl ((30786325577727998046875 : ℚ) / 2 ^ 42) = 7000000000 :=
    fl_eval 32 7340032000000000 (by norm_num) (by norm_num) (by norm_num)
      (by norm_num [roundHalfEven]) (by norm_num)
  have hlp14 : (validate_allocation_f64 16 70).lp_percent = 14 := by
    rw [validate_f64_16_70]
  have eO1 : (14 : ℚ) / 100 = 7 / 50 := by norm_num
  have hO : fl ((7 : ℚ) / 50) = 1261007895663739 / 2 ^ 53 :=
    fl_eval (-3) 5044031582654956 (by norm_num) (by norm_num) (by norm_num)
      (by norm_num [roundHalfEven]) (by norm_num)
  have eP1 : (10000000000 : ℚ) * (1261007895663739 / 2 ^ 53) =
      12314530231091201171875 / 2 ^ 43 := by norm_num
  have hP : fl ((12314530231091201171875 : ℚ) / 2 ^ 43) = 5872025600000001 / 2 ^ 22 :=
    fl_eval 30 5872025600000001 (by norm_num) (by norm_num) (by norm_num)
      (by norm_num [roundHalfEven]) (by norm_num)
  have e020 : (0.20 : ℚ) = 0.2 := by norm_num
  have eQ1 : (100000 : ℚ) * (3602879701896397 / 2 ^ 54) =
      11258999068426240625 / 2 ^ 49 := by norm_num
  have hQ : fl ((11258999068426240625 : ℚ) / 2 ^ 49) = 20000 :=
    fl_eval 14 5497558138880000 (by norm_num) (by norm_num) (by norm_num)
      (by norm_num [roundHalfEven]) (by norm_num)
  have eR1 : (100000 : ℚ) / 7000000000 = 1 / 70000 := by norm_num
  have hR : fl ((1 : ℚ) / 70000) = 2108199322709663 / 2 ^ 67 :=
    fl_eval (-17) 8432797290838652 (by norm_num) (by norm_num) (by norm_num)
      (by norm_num [roundHalfEven]) (by norm_num)
  have eS1 : (20000 : ℚ) / (5872025600000001 / 2 ^ 22) =
      83886080000 / 5872025600000001 := by norm_num
  have hS : fl ((83886080000 : ℚ) / 5872025600000001) = 8432797290838651 / 2 ^ 69 :=
    fl_eval (-17) 8432797290838651 (by norm_num) (by norm_num) (by norm_num)
      (by norm_num [roundHalfEven]) (by norm_num)
  constructor
  · simp only [app_results_f64, f64_mul, f64_div, TOTAL_SUPPLY]
    rw [h70, eM1, hM, eN1, hN, h100000, eR1, hR,
      if_pos (by norm_num : (7000000000 : ℚ) > 0)]
  · simp only [app_results_f64, f64_mul, f64_div, TOTAL_SUPPLY, LP_FUND_PERCENT]
    rw [hlp14, eO1, hO, eP1, hP, h100000, e020, fl_point_two, eQ1, hQ, eS1, hS,
      if_pos (by norm_num : (5872025600000001 : ℚ) / 2 ^ 22 > 0)]

/-- Binary64 evaluation of the two FDVs at (16, 70, 10000): here the
final products round to values one ulp apart, with fdv_lp below
fdv_ico. -/
theorem app_f64_fdv_10000 :
    (app_results_f64 16 70 10000).fdv_ico = 3926827242057143 / 2 ^ 38 ∧
    (app_results_f64 16 70 10000).fdv_lp = 7853654484114285 / 2 ^ 39 := by
  have h70 : fl (70 : ℚ) = 70 :=
    fl_exact 6 4925812092436480 (by norm_num) (by norm_num) (by norm_num) (by norm_num)
  have h10000 : fl (10000 : ℚ) = 10000 :=
    fl_exact 13 5497558138880000 (by norm_num) (by norm_num) (by norm_num) (by norm_num)
  have eM1 : (70 : ℚ) / 100 = 7 / 10 := by norm_num
  have hM : fl ((7 : ℚ) / 10) = 3152519739159347 / 2 ^ 52 :=
    fl_eval (-1) 6305039478318694 (by norm_num) (by norm_num) (by norm_num)
      (by norm_num [roundHalfEven]) (by norm_num)
  have eN1 : (10000000000 : ℚ) * (3152519739159347 / 2 ^ 52) =
      30786325577727998046875 / 2 ^ 42 := by norm_num
  have hN : fl ((30786325577727998046875 : ℚ) / 2 ^ 42) = 7000000000 :=
    fl_eval 32 7340032000000000 (by norm_num) (by norm_num) (by norm_num)
      (by norm_num [roundHalfEven]) (by norm_num)
  have hlp14 : (validate_allocation_f64 16 70).lp_percent = 14 := by
    rw [validate_f64_16_70]
  have eO1 : (14 : ℚ) / 100 = 7 / 50 := by norm_num
  have hO : fl ((7 : ℚ) / 50) = 1261007895663739 / 2 ^ 53 :=
    fl_eval (-3) 5044031582654956 (by norm_num) (by norm_num) (by norm_num)
      (by norm_num [roundHalfEven]) (by norm_num)
  have eP1 : (10000000000 : ℚ) * (1261007895663739 / 2 ^ 53) =
      12314530231091201171875 / 2 ^ 43 := by norm_num
  have hP : fl ((12314530231091201171875 : ℚ) / 2 ^ 43) = 5872025600000001 / 2 ^ 22 :=
    fl_eval 30 5872025600000001 (by norm_num) (by norm_num) (by norm_num)
      (by norm_num [roundHalfEven]) (by norm_num)
  have e020 : (0.20 : ℚ) = 0.2 := by norm_num
  have eU1 : (10000 : ℚ) * (3602879701896397 / 2 ^ 54) =
      2251799813685248125 / 2 ^ 50 := by norm_num
  have hU : fl ((2251799813685248125 : ℚ) / 2 ^ 50) = 2000 :=
    fl_eval 10 8796093022208000 (by norm_num) (by norm_num) (by norm_num)
      (by norm_num [roundHalfEven]) (by norm_num)
  have eV1 : (10000 : ℚ) / 7000000000 = 1 / 700000 := by norm_num
  have hV : fl ((1 : ℚ) / 700000) = 3373118916335461 / 2 ^ 71 :=
    fl_eval (-20) 6746237832670922 (by norm_num) (by norm_num) (by norm_num)
      (by norm_num [roundHalfEven]) (by norm_num)
  have eW1 : (2000 : ℚ) / (5872025600000001 / 2 ^ 22) =
      8388608000 / 5872025600000001 := by norm_num
  have hW : fl ((8388608000 : ℚ) / 5872025600000001) = 6746237832670921 / 2 ^ 72 :=
    fl_eval (-20) 6746237832670921 (by norm_num) (by norm_num) (by norm_num)
      (by norm_num [roundHalfEven]) (by norm_num)
  have eX1 : (10000000000 : ℚ) * (3373118916335461 / 2 ^ 71) =
      32940614417338486328125 / 2 ^ 61 := by norm_num
  have hX : fl ((32940614417338486328125 : ℚ) / 2 ^ 61) = 3926827242057143 / 2 ^ 38 :=
    fl_eval 13 7853654484114286 (by norm_num) (by norm_num) (by norm_num)
      (by norm_num [roundHalfEven]) (by norm_num)
  have eY1 : (10000000000 : ℚ) * (6746237832670921 / 2 ^ 72) =
      65881228834676962890625 / 2 ^ 62 := by norm_num
  have hY : fl ((65881228834676962890625 : ℚ) / 2 ^ 62) = 7853654484114285 / 2 ^ 39 :=
    fl_eval 13 7853654484114285 (by norm_num) (by norm_num) (by norm_num)
      (by norm_num [roundHalfEven]) (by norm_num)
  constructor
  · simp only [app_results_f64, f64_mul, f64_div, TOTAL_SUPPLY]
    rw [h70, eM1, hM, eN1, hN, h10000,
      if_pos (by norm_num : (7000000000 : ℚ) > 0), eV1, hV, eX1, hX]
  · simp only [app_results_f64, f64_mul, f64_div, TOTAL_SUPPLY, LP_FUND_PERCENT]
    rw [hlp14, eO1, hO, eP1, hP, h10000, e020, fl_point_two, eU1, hU,
      if_pos (by norm_num : (5872025600000001 : ℚ) / 2 ^ 22 > 0), eW1, hW, eY1, hY]

/-! ## Shared helper lemmas -/

/-- The lp_percent field returned by validate_allocation is always
100 - team - public, on every branch. -/
theorem validate_allocation_lp_percent (t p : ℚ) :
    (validate_allocation t p).lp_percent = 100 - t - p := by
  simp only [validate_allocation]
  split_ifs <;> rfl

/-- The two validity decisions agree: validate_allocation accepts a pair
exactly when the check chain of validate_and_update accepts it.  The
extra first check of run.py (team + public >= 100) is subsumed by the
lp < 0.1 check, since team + public >= 100 forces lp <= 0 < 0.1. -/
theorem app_valid_iff_run_valid (t p : ℚ) :
    (validate_allocation t p).valid = true ↔ run_is_valid t p = true := by
  simp only [validate_allocation, run_is_valid]
  split_ifs with h1 h2 h3 <;> simp_all
  linarith

/-! ## Claims -/

/-- C1: for every pair of rational inputs, validate_allocation returns
lp_percent = 100 - team - public; it is invalid with the
LP_ZERO_OR_NEGATIVE message exactly when lp_percent < 0.1; otherwise it
is invalid with the LP_FDV_BELOW_ICO_FDV message exactly when
public > 0.1 and lp_percent > 0.2 * public; otherwise it is valid with
an empty reason.  Totality of the Lean function embeds the fact that
the Python function never throws. -/
theorem claim_C1 (t p : ℚ) :
    (validate_allocation t p).lp_percent = 100 - t - p ∧
    ((validate_allocation t p).valid = false ∧
        (validate_allocation t p).reason = "LP cannot be 0%" ↔ 100 - t - p < 0.1) ∧
    (¬ 100 - t - p < 0.1 →
      ((validate_allocation t p).valid = false ∧
          (validate_allocation t p).reason = "LP FDV would drop below ICO FDV" ↔
        p > 0.1 ∧ 100 - t - p > 0.2 * p)) ∧
    (¬ 100 - t - p < 0.1 → ¬ (p > 0.1 ∧ 100 - t - p > 0.2 * p) →
      (validate_allocation t p).valid = true ∧ (validate_allocation t p).reason = "") := by
  refine ⟨validate_allocation_lp_percent t p, ?_, ?_, ?_⟩ <;>
    simp only [validate_allocation] <;> split_ifs with h1 h2 <;> simp_all

/-- C1 witness: at (50, 30) the third step rejects with the
LP_FDV_BELOW_ICO_FDV message, and at (16, 70) both rejection tests fail
and the validator accepts with an empty reason. -/
theorem claim_C1_witness :
    ((validate_allocation 50 30).valid = false ∧
      (validate_allocation 50 30).reason = "LP FDV would drop below ICO FDV") ∧
    ((validate_allocation 16 70).valid = true ∧ (validate_allocation 16 70).reason = "") :=
  ⟨((claim_C1 50 30).2.2.1 (by norm_num)).mpr (by norm_num),
   (claim_C1 16 70).2.2.2 (by norm_num) (by norm_num)⟩

/-- C2: the web engine (validate_allocation in app.py) and the GUI
engine (the check chain of validate_and_update in run.py) decide
validity identically on every pair of inputs. -/
theorem claim_C2 (t p : ℚ) :
    (validate_allocation t p).valid = true ↔ run_is_valid t p = true :=
  app_valid_iff_run_valid t p

/-- C3 counterexample: under the program's binary64 arithmetic the
input (10, 89.9) is NOT valid: the double nearest 89.9 is slightly
above 89.9, so 100 - 10 - 89.9 computes to about 0.0999999999999943,
the step-2 test lp < 0.1 is true, and the validator rejects with
"LP cannot be 0%" and an lp_percent different from 0.1; the claimed
valid outcome with lp_percent exactly 0.1 does not occur. -/
theorem claim_C3_counterexample :
    (validate_allocation_f64 10 89.9).valid = false ∧
    (validate_allocation_f64 10 89.9).reason = "LP cannot be 0%" ∧
    (validate_allocation_f64 10 89.9).lp_percent < 0.1 ∧
    (validate_allocation_f64 10 89.9).lp_percent ≠ 0.1 := by
  rw [validate_f64_10_899]
  exact ⟨rfl, rfl, by norm_num, by norm_num⟩

/-- C3 (amended): at team = 10, public = 89.9 the validator as executed
in binary64 returns invalid with reason LP_ZERO_OR_NEGATIVE
("LP cannot be 0%") and a computed lp_percent strictly between 0 and
0.1 (exactly 3518437208883/2^45, about 0.0999999999999943), because
the double for 89.9 exceeds 89.9; only under exact arithmetic would
lp_percent be exactly 0.1 and the outcome valid, as the idealized
model confirms. -/
theorem claim_C3_amended :
    (validate_allocation_f64 10 89.9).valid = false ∧
    (validate_allocation_f64 10 89.9).reason = "LP cannot be 0%" ∧
    (validate_allocation_f64 10 89.9).lp_percent = 3518437208883 / 2 ^ 45 ∧
    0 < (validate_allocation_f64 10 89.9).lp_percent ∧
    (validate_allocation_f64 10 89.9).lp_percent < 0.1 ∧
    (validate_allocation 10 89.9).valid = true ∧
    (validate_allocation 10 89.9).lp_percent = 0.1 := by
  rw [validate_f64_10_899]
  refine ⟨rfl, rfl, rfl, by norm_num, by norm_num, ?_, ?_⟩ <;>
    norm_num [validate_allocation]

/-- C4: at team = 10, public = 70 the validator rejects with the
message "LP FDV would drop below ICO FDV" and lp_percent = 20, because
20 > 0.2 * 70 = 14 and 70 > 0.1.  (The validator does not consume
fundsToRaise, so this holds for any funds value.) -/
theorem claim_C4 :
    (validate_allocation 10 70).valid = false ∧
    (validate_allocation 10 70).reason = "LP FDV would drop below ICO FDV" ∧
    (validate_allocation 10 70).lp_percent = 20 := by
  norm_num [validate_allocation]

/-- C10: holding public fixed, the lp_percent returned by the validator
is strictly antitone in team: increasing team strictly decreases it. -/
theorem claim_C10 (p t1 t2 : ℚ) (h : t1 < t2) :
    (validate_allocation t2 p).lp_percent < (validate_allocation t1 p).lp_percent := by
  rw [validate_allocation_lp_percent, validate_allocation_lp_percent]
  linarith

/-- C10 witness: with public = 70, raising team from 10 to 20 strictly
lowers the returned lp_percent. -/
theorem claim_C10_witness :
    (10 : ℚ) < 20 ∧
    (validate_allocation 20 70).lp_percent < (validate_allocation 10 70).lp_percent :=
  ⟨by norm_num, claim_C10 70 10 20 (by norm_num)⟩

/-- C5 (code bug evidence): the documented invariant fails in the
program's binary64 arithmetic at an input the validator itself accepts.
At (16, 70, 100000) the float validator accepts, yet the computed
lp_price is one ulp below ico_price, and at (16, 70, 10000) the
computed fdv_lp is one ulp below fdv_ico — while under exact
arithmetic the two prices at (16, 70, 100000) are exactly equal
(both 1/70000), i.e. the documented constraint holds there with zero
margin, which is why rounding can land on either side. -/
theorem claim_C5_failing_eval :
    (validate_allocation_f64 16 70).valid = true ∧
    (app_results_f64 16 70 100000).lp_price < (app_results_f64 16 70 100000).ico_price ∧
    (app_results_f64 16 70 10000).fdv_lp < (app_results_f64 16 70 10000).fdv_ico ∧
    (app_results 16 70 100000).ico_price = (app_results 16 70 100000).lp_price := by
  refine ⟨?_, ?_, ?_, ?_⟩
  · rw [validate_f64_16_70]
  · rw [app_f64_prices_100000.1, app_f64_prices_100000.2]
    norm_num
  · rw [app_f64_fdv_10000.1, app_f64_fdv_10000.2]
    norm_num
  · norm_num [app_results, validate_allocation, TOTAL_SUPPLY, LP_FUND_PERCENT]

/-- C6: the derivation never signals an error for any rational input:
every division is guarded, so when public_tokens is not positive then
ico_price = 0 and fdv_ico = 0, when lp_tokens is not positive then
lp_price = 0 and fdv_lp = 0, and when fdv_ico is not positive then
fdv_multiple = 0 — in the app.py derivation and in the run.py one
alike.  Both embeddings are total Lean functions, embedding the fact
that the core computation raises no exception. -/
theorem claim_C6 (t p f : ℚ) :
    (¬ 0 < (app_results t p f).public_tokens →
      (app_results t p f).ico_price = 0 ∧ (app_results t p f).fdv_ico = 0) ∧
    (¬ 0 < (app_results t p f).lp_tokens →
      (app_results t p f).lp_price = 0 ∧ (app_results t p f).fdv_lp = 0) ∧
    (¬ 0 < (app_results t p f).fdv_ico → (app_results t p f).fdv_multiple = 0) ∧
    (¬ 0 < (run_update_calculations t p f).public_tokens →
      (run_update_calculations t p f).ico_price = 0 ∧
        (run_update_calculations t p f).fdv_ico = 0) ∧
    (¬ 0 < (run_update_calculations t p f).lp_tokens →
      (run_update_calculations t p f).lp_price = 0 ∧
        (run_update_calculations t p f).fdv_lp = 0) ∧
    (¬ 0 < (run_update_calculations t p f).fdv_ico →
      (run_update_calculations t p f).fdv_multiple = 0) := by
  refine ⟨?_, ?_, ?_, ?_, ?_, ?_⟩ <;>
    · intro h
      simp only [app_results, run_update_calculations] at h ⊢
      simp_all [if_neg h]

/-- C6 witness: at (0, 0, 100000) public_tokens is 0, so ico_price,
fdv_ico and fdv_multiple all degrade to 0; at (30, 70, 100000)
lp_tokens is 0, so lp_price and fdv_lp degrade to 0; and likewise in
the run.py derivation. -/
theorem claim_C6_witness :
    ((app_results 0 0 100000).ico_price = 0 ∧ (app_results 0 0 100000).fdv_ico = 0) ∧
    ((app_results 30 70 100000).lp_price = 0 ∧ (app_results 30 70 100000).fdv_lp = 0) ∧
    (app_results 0 0 100000).fdv_multiple = 0 ∧
    ((run_update_calculations 0 0 100000).ico_price = 0 ∧
      (run_update_calculations 0 0 100000).fdv_ico = 0) ∧
    ((run_update_calculations 30 70 100000).lp_price = 0 ∧
      (run_update_calculations 30 70 100000).fdv_lp = 0) ∧
    (run_update_calculations 0 0 100000).fdv_multiple = 0 := by
  have ha1 : ¬ 0 < (app_results 0 0 100000).public_tokens := by
    norm_num [app_results, TOTAL_SUPPLY]
  have ha2 : ¬ 0 < (app_results 30 70 100000).lp_tokens := by
    norm_num [app_results, validate_allocation, TOTAL_SUPPLY]
  have hico := (claim_C6 0 0 100000).1 ha1
  have ha3 : ¬ 0 < (app_results 0 0 100000).fdv_ico := by rw [hico.2]; norm_num
  have hr1 : ¬ 0 < (run_update_calculations 0 0 100000).public_tokens := by
    norm_num [run_update_calculations, TOTAL_SUPPLY]
  have hr2 : ¬ 0 < (run_update_calculations 30 70 100000).lp_tokens := by
    norm_num [run_update_calculations, TOTAL_SUPPLY]
  have hrico := (claim_C6 0 0 100000).2.2.2.1 hr1
  have hr3 : ¬ 0 < (run_update_calculations 0 0 100000).fdv_ico := by rw [hrico.2]; norm_num
  exact ⟨hico, (claim_C6 30 70 100000).2.1 ha2, (claim_C6 0 0 100000).2.2.1 ha3,
    hrico, (claim_C6 30 70 100000).2.2.2.2.1 hr2, (claim_C6 0 0 100000).2.2.2.2.2 hr3⟩

/-- C7: at team = 0, public = 0, funds = 100000 the validator accepts
with lp_percent = 100 (the third check is skipped since public is not
greater than 0.1), and the derivation yields public_tokens = 0,
ico_price = 0, fdv_ico = 0, fdv_multiple = 0, lp_tokens = 10 billion,
lp_funds = 20000, lp_price = 0.000002, and fdv_lp = 20000. -/
theorem claim_C7 :
    (validate_allocation 0 0).valid = true ∧
    (validate_allocation 0 0).lp_percent = 100 ∧
    (app_results 0 0 100000).public_tokens = 0 ∧
    (app_results 0 0 100000).ico_price = 0 ∧
    (app_results 0 0 100000).fdv_ico = 0 ∧
    (app_results 0 0 100000).fdv_multiple = 0 ∧
    (app_results 0 0 100000).lp_tokens = 10000000000 ∧
    (app_results 0 0 100000).lp_funds = 20000 ∧
    (app_results 0 0 100000).lp_price = 0.000002 ∧
    (app_results 0 0 100000).fdv_lp = 20000 := by
  norm_num [validate_allocation, app_results, TOTAL_SUPPLY, LP_FUND_PERCENT]

/-- C8 counterexample: the initial committed pair of the GUI is
(team, public) = (10, 70), which is reachable with no edits, and both
validity engines reject it (lp_percent = 20 exceeds 0.2 * 70 = 14), so
the committed pair does not satisfy the validator in every reachable
state and the initial pair is not valid. -/
theorem claim_C8_counterexample :
    GuiReachable gui_init ∧
    gui_init.prev_team = 10 ∧ gui_init.prev_public = 70 ∧
    (validate_allocation gui_init.prev_team gui_init.prev_public).valid = false ∧
    run_is_valid gui_init.prev_team gui_init.prev_public = false := by
  refine ⟨GuiReachable.init, rfl, rfl, ?_, ?_⟩ <;>
    norm_num [gui_init, validate_allocation, run_is_valid]

/-- C8 (amended): an invalid candidate is never committed — each edit
step either passes the three validity checks and commits the candidate,
or reverts the edited variable and leaves the committed pair unchanged.
Hence in every reachable state the committed pair either satisfies the
validator or is still the initial pair (10, 70), which itself fails the
validator, so the claimed invariant holds from any valid committed pair
but not from the actual initial state. -/
theorem claim_C8_amended {s : GuiState} (h : GuiReachable s) :
    s = gui_init ∨ (validate_allocation s.prev_team s.prev_public).valid = true := by
  induction h with
  | init => exact Or.inl rfl
  | step e hs ih =>
    rename_i s'
    cases e with
    | setTeam v =>
      simp only [gui_step]
      split_ifs with hok
      · exact Or.inr ((app_valid_iff_run_valid _ _).mpr hok)
      · exact ih
    | setPublic v =>
      simp only [gui_step]
      split_ifs with hok
      · exact Or.inr ((app_valid_iff_run_valid _ _).mpr hok)
      · exact ih
    | setFunds v =>
      simpa only [gui_step] using ih

/-- C8 witness: the state (16, 70) is reached from the initial state by
one accepted team edit, and the amended invariant applied to it yields
that its committed pair satisfies the validator. -/
theorem claim_C8_witness :
    GuiReachable (GuiState.mk 16 70) ∧
    (GuiState.mk 16 70 = gui_init ∨ (validate_allocation 16 70).valid = true) := by
  have hstep : gui_step gui_init (GuiEdit.setTeam 16) = GuiState.mk 16 70 := by
    norm_num [gui_step, gui_init, run_is_valid]
  have hr : GuiReachable (GuiState.mk 16 70) := by
    have h := GuiReachable.step (GuiEdit.setTeam 16) GuiReachable.init
    rwa [hstep] at h
  exact ⟨hr, claim_C8_amended hr⟩

/-- C9: format_number agrees with the spec's disjoint-range contract
on every rational input, and on the three given examples it produces
"1.25B", "999.00" and "45.00K". -/
theorem claim_C9 :
    (∀ num : ℚ, format_number num = format_number_spec num) ∧
    format_number 1250000000 = "1.25B" ∧
    format_number 999 = "999.00" ∧
    format_number 45000 = "45.00K" := by
  refine ⟨?_, ?_, ?_, ?_⟩
  · intro num
    by_cases h1 : num ≥ 1000000000 <;> by_cases h2 : num ≥ 1000000 <;>
      by_cases h3 : num ≥ 1000 <;> simp_all [format_number, format_number_spec]
  · have hge : ((1250000000 : ℚ) ≥ 1000000000) := by norm_num
    have hc : roundHalfEven ((1250000000 : ℚ) / 1000000000 * 100) = 125 := by
      norm_num [roundHalfEven]
    have hneg : ¬ ((1250000000 : ℚ) / 1000000000 < 0) := by norm_num
    simp only [format_number, if_pos hge, formatFixed2, hc, if_neg hneg]
    decide
  · have h1 : ¬ ((999 : ℚ) ≥ 1000000000) := by norm_num
    have h2 : ¬ ((999 : ℚ) ≥ 1000000) := by norm_num
    have h3 : ¬ ((999 : ℚ) ≥ 1000) := by norm_num
    have hc : roundHalfEven ((999 : ℚ) * 100) = 99900 := by norm_num [roundHalfEven]
    have hneg : ¬ ((999 : ℚ) < 0) := by norm_num
    simp only [format_number, if_neg h1, if_neg h2, if_neg h3, formatFixed2, hc, if_neg hneg]
    decide
  · have h1 : ¬ ((45000 : ℚ) ≥ 1000000000) := by norm_num
    have h2 : ¬ ((45000 : ℚ) ≥ 1000000) := by norm_num
    have h3 : ((45000 : ℚ) ≥ 1000) := by norm_num
    have hc : roundHalfEven ((45000 : ℚ) / 1000 * 100) = 4500 := by norm_num [roundHalfEven]
    have hneg : ¬ ((45000 : ℚ) / 1000 < 0) := by norm_num
    simp only [format_number, if_neg h1, if_neg h2, if_pos h3, formatFixed2, hc, if_neg hneg]
    decide
